import Mathlib

/-!
Verification of the network-aware dispatch core (kompact: `src/core/src/dispatch/mod.rs`
and `src/core/src/serialisation.rs`) against its natural-language specification.

The Rust code is shallowly embedded: buffers become `List Nat` (byte lists),
machine integers become `Nat` with explicit bounds, fallible operations return
`Except`, and panics surface as `Except.error` with the panic message.
Components of the repository that are referenced from `dispatch/mod.rs` but whose
source is not part of this tree (the `QueueManager`, the reaper backoff strategy,
the actor store insert, the network bridge) are modelled from the specification;
every such definition is marked `Modelled from the spec:` in its doc comment.
-/

namespace Kompact

/-! ## Serialisation model (`serialisation.rs`) -/

/-- From `serialisation.rs` lines 7-12: the three kinds of serialisation errors. -/
inductive SerError where
  | InvalidData (msg : String)
  | InvalidType (msg : String)
  | Unknown (msg : String)
deriving DecidableEq

/-- From `serialisation.rs` lines 14-20: trait `Serialiser<T>`.
A buffer is a byte list; `serialise` returns the extended buffer or an error. -/
structure Serialiser (T : Type) where
  id : Nat
  size_hint : Option Nat
  serialise : T → List Nat → Except SerError (List Nat)

/-- From `serialisation.rs` lines 22-26: trait object `Serialisable`
(its three methods, with the value captured inside). -/
structure Serialisable where
  id : Nat
  size_hint : Option Nat
  serialise : List Nat → Except SerError (List Nat)

/-- From `serialisation.rs` lines 48-71: `SerialisableValue { v, ser }` and its
`Serialisable` impl, which delegates each method to `ser` (applied to `v`). -/
def SerialisableValue {T : Type} (v : T) (ser : Serialiser T) : Serialisable :=
  { id := ser.id
    size_hint := ser.size_hint
    serialise := fun buf => ser.serialise v buf }

/-- From `serialisation.rs` lines 28-37: `impl From<(T, S)> for Box<Serialisable>`,
which wraps the pair into a `SerialisableValue`. -/
def fromPairSerialisable {T : Type} (t : T × Serialiser T) : Serialisable :=
  SerialisableValue t.1 t.2

/-- Model of `bytes::BufMut::put_u64` (big-endian, as used by the 0.4 `bytes` crate
here): append the eight big-endian bytes of `n` (a `u64`) to the buffer. -/
def putU64 (n : Nat) (buf : List Nat) : List Nat :=
  buf ++ [n / 2 ^ 56 % 256, n / 2 ^ 48 % 256, n / 2 ^ 40 % 256, n / 2 ^ 32 % 256,
    n / 2 ^ 24 % 256, n / 2 ^ 16 % 256, n / 2 ^ 8 % 256, n % 256]

/-- Model of `bytes::Buf::get_u64`: read eight big-endian bytes from the front of
the buffer.  The `bytes` crate panics on underflow; that case is `none`. -/
def getU64 : List Nat → Option (Nat × List Nat)
  | b0 :: b1 :: b2 :: b3 :: b4 :: b5 :: b6 :: b7 :: rest =>
    some (((((((b0 * 256 + b1) * 256 + b2) * 256 + b3) * 256 + b4) * 256 + b5) * 256
      + b6) * 256 + b7, rest)
  | _ => none

/-- From `serialisation.rs` lines 128-131: `struct Test1 { i: u64 }`.
The `u64` bound `i < 2 ^ 64` is carried as a hypothesis in the theorems. -/
structure Test1 where
  i : Nat
deriving DecidableEq

/-- From `serialisation.rs` line 135-137: `T1Ser::id`. -/
def T1Ser.id : Nat := 1

/-- From `serialisation.rs` lines 138-140: `T1Ser::size_hint`. -/
def T1Ser.size_hint : Option Nat := some 88

/-- From `serialisation.rs` lines 141-148: `T1Ser::serialise` writes `v.i`
followed by the ten `u64` values `0..10`. -/
def T1Ser.serialise (v : Test1) (buf : List Nat) : Except SerError (List Nat) :=
  Except.ok ((List.range 10).foldl (fun b k => putU64 k b) (putU64 v.i buf))

/-- From `serialisation.rs` lines 150-155: `T1Ser::deserialise` reads one `u64`
with no length check; a short buffer would make `get_u64` panic (`none` here). -/
def T1Ser.deserialise (buf : List Nat) : Option (Except SerError Test1) :=
  (getU64 buf).map (fun r => Except.ok ⟨r.1⟩)

/-! PingPong serialisers from the test module of `dispatch/mod.rs` (lines 735-819). -/

/-- From `dispatch/mod.rs` line 736-738: `struct PingMsg { i: u64 }`. -/
structure PingMsg where
  i : Nat
deriving DecidableEq

/-- From `dispatch/mod.rs` line 740-743: `struct PongMsg { i: u64 }`. -/
structure PongMsg where
  i : Nat
deriving DecidableEq

/-- From `dispatch/mod.rs` lines 749-761: `Serialiser<PingMsg> for PingPongSer`
writes the tag byte `PING_ID = 1` then `v.i` as a big-endian `u64`. -/
def PingPongSer.serialisePing (v : PingMsg) (buf : List Nat) : Except SerError (List Nat) :=
  Except.ok (putU64 v.i (buf ++ [1]))

/-- From `dispatch/mod.rs` lines 763-775: `Serialiser<PongMsg> for PingPongSer`
writes the tag byte `PONG_ID = 2` then `v.i` as a big-endian `u64`. -/
def PingPongSer.serialisePong (v : PongMsg) (buf : List Nat) : Except SerError (List Nat) :=
  Except.ok (putU64 v.i (buf ++ [2]))

/-- From `dispatch/mod.rs` lines 776-797: `Deserialiser<PingMsg> for PingPongSer`.
Fewer than 9 remaining bytes is `InvalidData`; then the tag byte selects the case. -/
def PingPongSer.deserialisePing : List Nat → Except SerError PingMsg
  | b :: b0 :: b1 :: b2 :: b3 :: b4 :: b5 :: b6 :: b7 :: _rest =>
    if b = 1 then
      Except.ok ⟨((((((b0 * 256 + b1) * 256 + b2) * 256 + b3) * 256 + b4) * 256 + b5) * 256
        + b6) * 256 + b7⟩
    else if b = 2 then Except.error (SerError.InvalidType "Found PongMsg, but expected PingMsg.")
    else Except.error (SerError.InvalidType "Found unkown id, but expected PingMsg.")
  | _ => Except.error (SerError.InvalidData "Serialised typed has 9bytes but fewer remain in buffer.")

/-- From `dispatch/mod.rs` lines 798-819: `Deserialiser<PongMsg> for PingPongSer`. -/
def PingPongSer.deserialisePong : List Nat → Except SerError PongMsg
  | b :: b0 :: b1 :: b2 :: b3 :: b4 :: b5 :: b6 :: b7 :: _rest =>
    if b = 2 then
      Except.ok ⟨((((((b0 * 256 + b1) * 256 + b2) * 256 + b3) * 256 + b4) * 256 + b5) * 256
        + b6) * 256 + b7⟩
    else if b = 1 then Except.error (SerError.InvalidType "Found PingMsg, but expected PongMsg.")
    else Except.error (SerError.InvalidType "Found unkown id, but expected PongMsg.")
  | _ => Except.error (SerError.InvalidData "Serialised typed has 9bytes but fewer remain in buffer.")

/-! ## Paths and the actor registry (`dispatch/mod.rs`, `actors`) -/

/-- Transport selector of a `SystemPath` (spec section 3): LOCAL, TCP or UDP. -/
inductive Transport where
  | LOCAL
  | TCP
  | UDP
deriving DecidableEq

/-- A `SystemPath` is (transport, ip, port); equality is structural (spec section 3).
IP addresses are abstracted to naturals. -/
structure SystemPath where
  transport : Transport
  ip : Nat
  port : Nat
deriving DecidableEq

/-- An `ActorPath` is Unique (system + id) or Named (system + segments) (spec section 3). -/
inductive ActorPath where
  | unique (sys : SystemPath) (id : Nat)
  | named (sys : SystemPath) (segments : List String)
deriving DecidableEq

/-- `ActorPath::system()`: the `SystemPath` of either variant. -/
def ActorPath.system : ActorPath → SystemPath
  | ActorPath.unique sys _ => sys
  | ActorPath.named sys _ => sys

/-- From `messaging`: the source designator of a dispatch envelope
(`PathResolvable`), resolved by `route` (`dispatch/mod.rs` lines 342-351). -/
inductive PathResolvable where
  | Path (p : ActorPath)
  | Alias (a : String)
  | ActorId (u : Nat)
  | System

/-- Actor references are opaque handles; abstracted to naturals. -/
abbrev ActorRef := Nat

/-- Modelled from the spec: an `ActorStore` snapshot (spec section 4.1, source in
`dispatch/lookup`, not under `src/`) maps actor paths to actor references; here an
association list read front-to-back. -/
abbrev Store := List (ActorPath × ActorRef)

/-- Modelled from the spec: `get_by_actor_path` point lookup on a snapshot. -/
def lookupPath (store : Store) (p : ActorPath) : Option ActorRef :=
  (store.find? (fun e => decide (e.1 = p))).map (fun e => e.2)

/-- Modelled from the spec: `contains(path)` on a snapshot. -/
def Store.contains (store : Store) (p : ActorPath) : Bool :=
  store.any (fun e => decide (e.1 = p))

/-- Modelled from the spec: `ActorStore::insert` (structural insert returning a
new snapshot, spec section 2). -/
def Store.insert (store : Store) (actor : ActorRef) (p : ActorPath) : Store :=
  (p, actor) :: store

/-- From `messaging`: the registration error surfaced through the promise. -/
inductive RegistrationError where
  | DuplicateEntry
deriving DecidableEq

/-- From `dispatch/mod.rs` lines 408-423 (`Dispatcher::receive`, Registration
envelope): check `contains` against a lease; on a duplicate, reject with
`DuplicateEntry` and publish nothing; otherwise publish the snapshot with the
new entry via `rcu` and answer `Ok(())`.  Returns the published snapshot and the
result fulfilled into the promise. -/
def register (store : Store) (actor : ActorRef) (path : ActorPath) :
    Store × Except RegistrationError Unit :=
  if Store.contains store path then (store, Except.error RegistrationError.DuplicateEntry)
  else (Store.insert store actor path, Except.ok ())

/-! ## Connection state, channels and per-peer queues -/

/-- Frames are opaque serialised payloads; abstracted to naturals
(`Frame::Data` with stream id 0 and seq 0, `dispatch/mod.rs` lines 275-278). -/
abbrev Frame := Nat

/-- Model of the unbounded per-peer frame sender (`futures` mpsc).  Such a
sender fails exactly when its receiving side has been dropped, and stays failed
afterwards; `accepts = none` means the channel is never dropped, while
`accepts = some k` means the next `k` sends succeed and all later sends fail. -/
structure Chan where
  accepts : Option Nat
deriving DecidableEq

/-- `unbounded_send`: either the frame is accepted (and the channel advances) or
the send fails and the error hands back the frame (`err.into_inner()`). -/
def Chan.send (c : Chan) (f : Frame) : Except Frame Chan :=
  match c.accepts with
  | none => Except.ok c
  | some 0 => Except.error f
  | some (k + 1) => Except.ok ⟨some k⟩

/-- From `net::ConnectionState` (spec section 3): the per-peer connection state.
`Error` records only whether the kind was `ConnectionRefused` (the only kind
`dispatch/mod.rs` lines 217-231 distinguishes, for logging). -/
inductive ConnState where
  | New
  | Initializing
  | Connected (ch : Chan)
  | Closed
  | Error (refused : Bool)
deriving DecidableEq

/-- Modelled from the spec: `QueueManager::enqueue_frame` appends to the
per-peer FIFO (spec section 4.3; source in `dispatch/queue_manager`, not under
`src/`). -/
def enqueue_frame (f : Frame) (q : List Frame) : List Frame := q ++ [f]

/-- Result of a `try_drain` call: the remaining queue, the channel after the
performed sends, the frames handed to the sender in order, and the connection
state the queue manager asks the dispatcher to install (`Some Closed` on a send
failure, `None` otherwise). -/
structure DrainResult where
  queue : List Frame
  chan : Chan
  delivered : List Frame
  next : Option ConnState
deriving DecidableEq

/-- Modelled from the spec: `QueueManager::try_drain(addr, sender)` pops while
the sender accepts; on the first send failure it re-queues the failed frame at
the head, returns `Closed`, and stops draining (spec section 4.3). -/
def try_drain (q : List Frame) (ch : Chan) : DrainResult :=
  match q with
  | [] => ⟨[], ch, [], none⟩
  | f :: rest =>
    match Chan.send ch f with
    | Except.error f2 => ⟨f2 :: rest, ch, [], some ConnState.Closed⟩
    | Except.ok ch2 =>
      let r := try_drain rest ch2
      ⟨r.queue, r.chan, f :: r.delivered, r.next⟩

/-- Result of the inline drain loop of `on_conn_state`. -/
structure ConnDrainResult where
  queue : List Frame
  chan : Chan
  delivered : List Frame
deriving DecidableEq

/-- From `dispatch/mod.rs` lines 200-212: the drain loop run when a `Connected`
event arrives.  It pops frames and sends them; on the first failure it re-queues
the failed frame with `enqueue_frame` (which appends at the tail) and breaks. -/
def drain_on_connected (q : List Frame) (ch : Chan) : ConnDrainResult :=
  match q with
  | [] => ⟨[], ch, []⟩
  | f :: rest =>
    match Chan.send ch f with
    | Except.error f2 => ⟨enqueue_frame f2 rest, ch, []⟩
    | Except.ok ch2 =>
      let r := drain_on_connected rest ch2
      ⟨r.queue, r.chan, f :: r.delivered⟩

/-! ## The per-peer dispatcher state machine -/

/-- The dispatcher state projected onto one peer address: its connection state
and its queue-manager FIFO, together with two ghost traces used to state the
FIFO property: `sent` is the sequence of frames handed to frame senders, `enq`
is the sequence of frames accepted by `route_remote` for this peer (queued or
sent directly). -/
structure PeerState where
  conn : ConnState
  queue : List Frame
  sent : List Frame
  enq : List Frame
deriving DecidableEq

/-- From `dispatch/mod.rs` lines 271-337: `route_remote` after the message has
been serialised into frame `f` (the `expect`/`unwrap` panic paths are modelled
separately in `route_remote`).  `hasBridge` and `hasQm` record whether
`net_bridge` and `queue_manager` are `Some` (both are set together by `start`,
lines 147-149).  The `or_insert(New)` of line 281 is implicit: `conn` is total
with initial value `New`. -/
def route_remote_frame (hasBridge hasQm : Bool) (f : Frame) (s : PeerState) : PeerState :=
  match s.conn with
  | ConnState.New | ConnState.Closed =>
    let s1 := if hasQm then
        { s with queue := enqueue_frame f s.queue, enq := s.enq ++ [f] }
      else s
    if hasBridge then { s1 with conn := ConnState.Initializing }
    else { s1 with conn := ConnState.Closed }
  | ConnState.Connected ch =>
    if hasQm then
      if s.queue.isEmpty then
        match Chan.send ch f with
        | Except.ok ch2 =>
          { s with conn := ConnState.Connected ch2, sent := s.sent ++ [f], enq := s.enq ++ [f] }
        | Except.error f2 =>
          { s with conn := ConnState.Closed, queue := enqueue_frame f2 s.queue, enq := s.enq ++ [f] }
      else
        let r := try_drain (enqueue_frame f s.queue) ch
        { s with queue := r.queue, sent := s.sent ++ r.delivered, enq := s.enq ++ [f],
                 conn := match r.next with
                   | some c => c
                   | none => ConnState.Connected r.chan }
    else s
  | ConnState.Initializing =>
    if hasQm then { s with queue := enqueue_frame f s.queue, enq := s.enq ++ [f] } else s
  | ConnState.Error _ => s

/-- From `dispatch/mod.rs` lines 190-236: `on_conn_state`.  A `Connected` event
drains the queue into the new sender (re-queuing a failed frame with
`enqueue_frame` and breaking); every event then records the arriving state
(line 235) - including, after a failed drain, the arriving `Connected` state. -/
def on_conn_state (hasQm : Bool) (st : ConnState) (s : PeerState) : PeerState :=
  match st with
  | ConnState.Connected ch =>
    if hasQm then
      let r := drain_on_connected s.queue ch
      { s with queue := r.queue, sent := s.sent ++ r.delivered,
               conn := ConnState.Connected r.chan }
    else { s with conn := ConnState.Connected ch }
  | other => { s with conn := other }

/-- One dispatcher event concerning a fixed peer: a `route_remote` call with an
already-serialised frame, or a network connection event. -/
inductive Op where
  | route (f : Frame)
  | connEvent (st : ConnState)

/-- One step of the per-peer dispatcher state machine. -/
def step (hasBridge hasQm : Bool) (s : PeerState) : Op → PeerState
  | Op.route f => route_remote_frame hasBridge hasQm f s
  | Op.connEvent st => on_conn_state hasQm st s

/-- Run a sequence of events (the dispatcher is a single-threaded consumer,
spec section 5, so a trace is a list). -/
def run (hasBridge hasQm : Bool) (s : PeerState) : List Op → PeerState
  | [] => s
  | op :: ops => run hasBridge hasQm (step hasBridge hasQm s op) ops

/-- A channel is drain-safe for a queue when it cannot fail strictly before the
last queued frame: if it accepts only `k` more sends, at most `k + 1` frames are
queued (so a failure, if any, hits the last frame and the tail re-queue of
`drain_on_connected` cannot reorder). -/
def connDrainSafe (q : List Frame) (ch : Chan) : Prop :=
  ∀ k, ch.accepts = some k → q.length ≤ k + 1

/-- Traces along which every `Connected` event finds a drain-safe channel for
the queue at that moment. -/
inductive SafeTrace (hasBridge hasQm : Bool) : PeerState → List Op → Prop
  | nil (s : PeerState) : SafeTrace hasBridge hasQm s []
  | route (s : PeerState) (f : Frame) (ops : List Op) :
      SafeTrace hasBridge hasQm (step hasBridge hasQm s (Op.route f)) ops →
      SafeTrace hasBridge hasQm s (Op.route f :: ops)
  | connEvent (s : PeerState) (st : ConnState) (ops : List Op) :
      (∀ ch, st = ConnState.Connected ch → hasQm = true → connDrainSafe s.queue ch) →
      SafeTrace hasBridge hasQm (step hasBridge hasQm s (Op.connEvent st)) ops →
      SafeTrace hasBridge hasQm s (Op.connEvent st :: ops)

/-! ## The full routing layer -/

/-- From `net::Bridge` as constrained by spec section 4.6: the only observation
the dispatcher makes of the bridge in `system_path` is `local_addr()`,
`Some (ip, port)` once bound. -/
structure Bridge where
  localAddr : Option (Nat × Nat)
deriving DecidableEq

/-- From `dispatch/mod.rs` lines 44-48: the dispatcher configuration. -/
structure NetworkConfig where
  addr : Nat × Nat
  transport : Transport
deriving DecidableEq

/-- From `dispatch/mod.rs` lines 445-452: `system_path`.  Panics (modelled as
`Except.error` carrying the panic message) while `net_bridge` is `None`, i.e.
before `start` has bound the socket; afterwards builds the `SystemPath` from the
configured transport and the bound address. -/
def system_path (netBridge : Option Bridge) (cfg : NetworkConfig) : Except String SystemPath :=
  match netBridge with
  | some b =>
    match b.localAddr with
    | some a => Except.ok ⟨cfg.transport, a.1, a.2⟩
    | none => Except.error "If net bridge is ready, port should be as well!"
  | none =>
    Except.error "You must wait until the socket is bound before attempting to create a system path!"

/-- From `dispatch/mod.rs` lines 342-351: source resolution in `route`.  `sp` is
the outcome of `system_path`; the `Alias`, `ActorId` and `System` cases all go
through it (`System` via `actor_path`, lines 370-373, with the component id
`selfId`), so they propagate its panic. -/
def resolve_src (sp : Except String SystemPath) (selfId : Nat) :
    PathResolvable → Except String ActorPath
  | PathResolvable.Path p => Except.ok p
  | PathResolvable.Alias a => sp.map (fun s => ActorPath.named s [a])
  | PathResolvable.ActorId u => sp.map (fun s => ActorPath.unique s u)
  | PathResolvable.System => sp.map (fun s => ActorPath.unique s selfId)

/-- The observable facts about a message needed by the router: the outcome of
`msg.local()` (`Some` when an in-process typed form exists), of
`serialise_msg(src, dst, msg)`, and of `serialise_to_recv_envelope(src, dst, msg)`. -/
structure Msg where
  localForm : Option Nat
  serMsg : Except SerError Frame
  serEnvelope : Except SerError Nat

/-- What `route_local` does to the destination actor. -/
inductive LocalOutcome where
  | told (dstRef srcRef : ActorRef)
  | enqueued (dstRef : ActorRef)
  | noActor
deriving DecidableEq

/-- From `dispatch/mod.rs` lines 242-267: `route_local`.  Unknown destination is
logged and dropped (`noActor`); a typed value is delivered by `tell` after the
source lookup, whose failure is the `panic!("Non-local ActorPath ended up in
local dispatcher!")`; without a typed form the message is serialised to a
receive envelope, whose serialisation failure hits the `unwrap` of line 259. -/
def route_local (src dst : ActorPath) (m : Msg) (store : Store) : Except String LocalOutcome :=
  match lookupPath store dst with
  | some actor =>
    match m.localForm with
    | some _ =>
      match lookupPath store src with
      | some srcActor => Except.ok (LocalOutcome.told actor srcActor)
      | none => Except.error "Non-local ActorPath ended up in local dispatcher!"
    | none =>
      match m.serEnvelope with
      | Except.ok _ => Except.ok (LocalOutcome.enqueued actor)
      | Except.error _ => Except.error "unwrap on serialise_to_recv_envelope"
  | none => Except.ok LocalOutcome.noActor

/-- From `dispatch/mod.rs` lines 271-337: `route_remote` including its two panic
sites: the `expect("s11n error")` on `serialise_msg` (line 276) and the `unwrap`
on `bridge.connect` (line 294, reached in the `New`/`Closed` branch when a
bridge is present; `connectOk` is the outcome of that call).  On the non-panic
paths the state change is `route_remote_frame`. -/
def route_remote (m : Msg) (connectOk hasBridge hasQm : Bool) (s : PeerState) :
    Except String PeerState :=
  match m.serMsg with
  | Except.error _ => Except.error "s11n error"
  | Except.ok f =>
    match s.conn with
    | ConnState.New | ConnState.Closed =>
      if hasBridge && !connectOk then Except.error "unwrap on bridge.connect"
      else Except.ok (route_remote_frame hasBridge hasQm f s)
    | _ => Except.ok (route_remote_frame hasBridge hasQm f s)

/-- The classification outcome of the router, paired below with the peer state after
the call. -/
inductive RouteResult where
  | localDelivery (out : LocalOutcome)
  | remote
  | droppedUdp
deriving DecidableEq

/-- From `dispatch/mod.rs` lines 341-368: `route`.  Resolves the source, then
classifies on the transport of `dst.system()`: LOCAL goes to `route_local`, TCP to
`route_remote`, UDP only logs "UDP routing is not supported." and drops the
message, leaving all state unchanged. -/
def route (src : PathResolvable) (dst : ActorPath) (m : Msg) (store : Store)
    (netBridge : Option Bridge) (cfg : NetworkConfig) (selfId : Nat)
    (connectOk hasQm : Bool) (peer : PeerState) :
    Except String (RouteResult × PeerState) :=
  match resolve_src (system_path netBridge cfg) selfId src with
  | Except.error e => Except.error e
  | Except.ok srcPath =>
    match dst.system.transport with
    | Transport.LOCAL =>
      (route_local srcPath dst m store).map (fun o => (RouteResult.localDelivery o, peer))
    | Transport.TCP =>
      (route_remote m connectOk netBridge.isSome hasQm peer).map (fun p => (RouteResult.remote, p))
    | Transport.UDP => Except.ok (RouteResult.droppedUdp, peer)

/-! ## The reaper (`dispatch/mod.rs` lines 153-176) -/

/-- Modelled from the spec: the self-tuning backoff strategy of the reaper (spec
section 4.2; source in `dispatch/lookup/gc`, not under `src/`): a current
interval with a floor, a ceiling and a geometric growth factor; `incr` lengthens
up to the ceiling, `decr` shortens down to the floor. -/
structure Strategy where
  curr : Nat
  lower : Nat
  upper : Nat
  factor : Nat
deriving DecidableEq

/-- Modelled from the spec: lengthen the interval, bounded by the ceiling. -/
def Strategy.incr (s : Strategy) : Strategy :=
  { s with curr := min (s.curr * s.factor) s.upper }

/-- Modelled from the spec: shorten the interval, bounded by the floor. -/
def Strategy.decr (s : Strategy) : Strategy :=
  { s with curr := max (s.curr / s.factor) s.lower }

/-- The reaper state the dispatcher owns: whether it has been scheduled, and
its strategy. -/
structure Reaper where
  scheduled : Bool
  strategy : Strategy
deriving DecidableEq

/-- From `dispatch/mod.rs` lines 153-176: `schedule_reaper`.  The first call
only marks the reaper as scheduled; every repeated call runs the reaper (the
number of reaped entries `numReaped` is the result of `reaper.run`) and then
calls `incr()` when nothing was reaped and `decr()` otherwise; the next wakeup
is the current interval of the strategy. -/
def schedule_reaper (r : Reaper) (numReaped : Nat) : Reaper :=
  if !r.scheduled then { r with scheduled := true }
  else if numReaped = 0 then { r with strategy := r.strategy.incr }
  else { r with strategy := r.strategy.decr }

/-! ## Helper lemmas for the byte codec -/

theorem getU64_of_putU64 (n : Nat) (h : n < 2 ^ 64) (rest : List Nat) :
    getU64 (putU64 n [] ++ rest) = some (n, rest) := by
  simp only [putU64, List.nil_append, List.cons_append, getU64]
  refine congrArg some (Prod.ext ?_ rfl)
  omega

theorem putU64_eq_append (n : Nat) (b : List Nat) : putU64 n b = b ++ putU64 n [] := by
  simp [putU64]

theorem foldl_putU64_extends (l : List Nat) (b : List Nat) :
    ∃ rest, l.foldl (fun acc k => putU64 k acc) b = b ++ rest := by
  induction l generalizing b with
  | nil => exact ⟨[], by simp⟩
  | cons k t ih =>
    obtain ⟨r, hr⟩ := ih (putU64 k b)
    refine ⟨putU64 k [] ++ r, ?_⟩
    rw [List.foldl_cons, hr, putU64_eq_append, List.append_assoc]

/-! ## Helper lemmas for the per-peer queue machinery -/

theorem Chan.send_error {ch : Chan} {f f2 : Frame} (h : Chan.send ch f = Except.error f2) :
    f2 = f ∧ ch.accepts = some 0 := by
  obtain ⟨acc⟩ := ch
  cases acc with
  | none => simp [Chan.send] at h
  | some k =>
    cases k with
    | zero => simp [Chan.send] at h; exact ⟨h.symm, rfl⟩
    | succ k => simp [Chan.send] at h

theorem try_drain_decomp (q : List Frame) (ch : Chan) :
    (try_drain q ch).delivered ++ (try_drain q ch).queue = q := by
  induction q generalizing ch with
  | nil => simp [try_drain]
  | cons f rest ih =>
    cases h : Chan.send ch f with
    | error f2 =>
      obtain ⟨rfl, -⟩ := Chan.send_error h
      simp [try_drain, h]
    | ok ch2 => simp [try_drain, h, ih]

theorem try_drain_next_closed (q : List Frame) (ch : Chan) (st : ConnState)
    (h : (try_drain q ch).next = some st) :
    st = ConnState.Closed ∧ (try_drain q ch).queue ≠ [] := by
  induction q generalizing ch with
  | nil => simp [try_drain] at h
  | cons f rest ih =>
    cases hs : Chan.send ch f with
    | error f2 => simp [try_drain, hs] at h ⊢; exact h.symm
    | ok ch2 =>
      simp only [try_drain, hs] at h ⊢
      exact ih ch2 h

theorem drain_on_connected_decomp (q : List Frame) (ch : Chan)
    (hsafe : connDrainSafe q ch) :
    (drain_on_connected q ch).delivered ++ (drain_on_connected q ch).queue = q := by
  induction q generalizing ch with
  | nil => simp [drain_on_connected]
  | cons f rest ih =>
    cases hs : Chan.send ch f with
    | error f2 =>
      obtain ⟨rfl, hacc⟩ := Chan.send_error hs
      have hlen := hsafe 0 hacc
      have hrest : rest = [] := by
        cases rest with
        | nil => rfl
        | cons a t => simp at hlen
      subst hrest
      simp [drain_on_connected, hs, enqueue_frame]
    | ok ch2 =>
      have hsafe2 : connDrainSafe rest ch2 := by
        intro k hk
        obtain ⟨acc⟩ := ch
        cases acc with
        | none =>
          simp [Chan.send] at hs
          subst hs
          simp at hk
        | some m =>
          cases m with
          | zero => simp [Chan.send] at hs
          | succ m =>
            simp [Chan.send] at hs
            subst hs
            simp at hk
            subst hk
            have := hsafe (m + 1) rfl
            simp at this ⊢
            omega
      simp [drain_on_connected, hs, ih ch2 hsafe2]

theorem drain_on_connected_fail (a : List Frame) (f : Frame) (rest : List Frame) :
    drain_on_connected (a ++ f :: rest) ⟨some a.length⟩ =
      ⟨rest ++ [f], ⟨some 0⟩, a⟩ := by
  induction a with
  | nil => simp [drain_on_connected, Chan.send, enqueue_frame]
  | cons x t ih => simp [drain_on_connected, Chan.send, ih]

theorem route_remote_frame_inv (hb hq : Bool) (f : Frame) (s : PeerState)
    (h : s.enq = s.sent ++ s.queue) :
    (route_remote_frame hb hq f s).enq =
      (route_remote_frame hb hq f s).sent ++ (route_remote_frame hb hq f s).queue := by
  obtain ⟨conn, queue, sent, enq⟩ := s
  simp only at h
  subst h
  cases conn with
  | New => cases hq <;> cases hb <;> simp [route_remote_frame, enqueue_frame]
  | Closed => cases hq <;> cases hb <;> simp [route_remote_frame, enqueue_frame]
  | Initializing => cases hq <;> simp [route_remote_frame, enqueue_frame]
  | Error refused => simp [route_remote_frame]
  | Connected ch =>
    cases hq with
    | false => simp [route_remote_frame]
    | true =>
      cases hqe : queue.isEmpty with
      | true =>
        have : queue = [] := by simpa [List.isEmpty_iff] using hqe
        subst this
        cases hs : Chan.send ch f with
        | ok ch2 => simp [route_remote_frame, hqe, hs]
        | error f2 =>
          obtain ⟨rfl, -⟩ := Chan.send_error hs
          simp [route_remote_frame, hqe, hs, enqueue_frame]
      | false =>
        have hd := try_drain_decomp (enqueue_frame f queue) ch
        simp only [route_remote_frame, hqe, Bool.false_eq_true, if_false, if_true]
        simp only [enqueue_frame] at hd ⊢
        rw [List.append_assoc, List.append_assoc, hd]

theorem on_conn_state_inv (hq : Bool) (st : ConnState) (s : PeerState)
    (h : s.enq = s.sent ++ s.queue)
    (hsafe : ∀ ch, st = ConnState.Connected ch → hq = true → connDrainSafe s.queue ch) :
    (on_conn_state hq st s).enq =
      (on_conn_state hq st s).sent ++ (on_conn_state hq st s).queue := by
  obtain ⟨conn, queue, sent, enq⟩ := s
  simp only at h
  subst h
  cases st with
  | Connected ch =>
    cases hq with
    | false => simp [on_conn_state]
    | true =>
      have hd := drain_on_connected_decomp queue ch (hsafe ch rfl rfl)
      simp only [on_conn_state, if_true]
      rw [List.append_assoc, hd]
  | New => simp [on_conn_state]
  | Initializing => simp [on_conn_state]
  | Closed => simp [on_conn_state]
  | Error refused => simp [on_conn_state]

theorem run_inv (hb hq : Bool) (s : PeerState) (ops : List Op)
    (hInv : s.enq = s.sent ++ s.queue) (hSafe : SafeTrace hb hq s ops) :
    (run hb hq s ops).enq = (run hb hq s ops).sent ++ (run hb hq s ops).queue := by
  induction ops generalizing s with
  | nil => simpa [run] using hInv
  | cons op t ih =>
    cases hSafe with
    | route _ f _ htail =>
      simp only [run]
      exact ih _ (route_remote_frame_inv hb hq f s hInv) htail
    | connEvent _ st _ hcond htail =>
      simp only [run]
      exact ih _ (on_conn_state_inv hq st s hInv hcond) htail

/-- C1 (amended): for every peer, along any trace in which each send failure
during a `Connected`-event drain can only strike the last queued frame
(`SafeTrace`), the sequence of frames handed to the frame senders of the peer is a
prefix of the sequence of frames enqueued by `route_remote` for that peer - no
reordering and no duplication; and a send failure inside `try_drain` leaves the
failed frame again at the head of the queue with the remainder in order.  (As
stated the claim is false: the drain of `on_conn_state`, `dispatch/mod.rs`
lines 200-212, re-queues a failed frame with `enqueue_frame`, which appends at
the tail, so a failure there with further frames still queued reorders; see the
counterexample.) -/
theorem C1_fifo_prefix_amended (hb hq : Bool) (s : PeerState) (ops : List Op)
    (hInv : s.enq = s.sent ++ s.queue) (hSafe : SafeTrace hb hq s ops) :
    (∃ t, (run hb hq s ops).sent ++ t = (run hb hq s ops).enq) ∧
    (∀ q ch st, (try_drain q ch).next = some st →
      st = ConnState.Closed ∧
      ∃ f rest, (try_drain q ch).queue = f :: rest ∧
        (try_drain q ch).delivered ++ f :: rest = q) := by
  constructor
  · exact ⟨(run hb hq s ops).queue, (run_inv hb hq s ops hInv hSafe).symm⟩
  · intro q ch st h
    have hd := try_drain_decomp q ch
    have hn := try_drain_next_closed q ch st h
    refine ⟨hn.1, ?_⟩
    cases hq2 : (try_drain q ch).queue with
    | nil => exact absurd hq2 hn.2
    | cons f rest => exact ⟨f, rest, rfl, by rw [← hq2]; exact hd⟩

/-- Witness for C1 at a concrete trace: two frames are routed while the
connection initialises, then a `Connected` event with a live channel drains
them; and `try_drain` of `[5, 6]` into a dropped channel keeps `5` at the head. -/
theorem C1_fifo_prefix_amended_witness :
    (∃ t, (run true true ⟨ConnState.New, [], [], []⟩
        [Op.route 0, Op.route 1, Op.connEvent (ConnState.Connected ⟨none⟩)]).sent ++ t =
      (run true true ⟨ConnState.New, [], [], []⟩
        [Op.route 0, Op.route 1, Op.connEvent (ConnState.Connected ⟨none⟩)]).enq) ∧
    (ConnState.Closed = ConnState.Closed ∧
      ∃ f rest, (try_drain [5, 6] ⟨some 0⟩).queue = f :: rest ∧
        (try_drain [5, 6] ⟨some 0⟩).delivered ++ f :: rest = [5, 6]) := by
  have hSafe : SafeTrace true true ⟨ConnState.New, [], [], []⟩
      [Op.route 0, Op.route 1, Op.connEvent (ConnState.Connected ⟨none⟩)] := by
    refine SafeTrace.route _ _ _ (SafeTrace.route _ _ _
      (SafeTrace.connEvent _ _ _ ?_ (SafeTrace.nil _)))
    intro ch hch hqm
    cases hch
    intro k hk
    simp at hk
  have h := C1_fifo_prefix_amended true true _ _ rfl hSafe
  exact ⟨h.1, h.2 [5, 6] ⟨some 0⟩ ConnState.Closed rfl⟩

/-- Counterexample for C1 as stated: starting from a fresh peer, route frames
`0` then `1`, then deliver a `Connected` event whose channel is already dropped.
The drain of `on_conn_state` pops `0`, fails, and re-queues it with
`enqueue_frame` - at the tail: the queue becomes `[1, 0]`, so the failed frame
is not at the head; a second `Connected` event with a live channel then hands
the frames to the sender as `[1, 0]`, which is not a prefix of the enqueue
order `[0, 1]`. -/
theorem C1_fifo_prefix_counterexample :
    (run true true ⟨ConnState.New, [], [], []⟩
      [Op.route 0, Op.route 1, Op.connEvent (ConnState.Connected ⟨some 0⟩)]).queue = [1, 0] ∧
    (run true true ⟨ConnState.New, [], [], []⟩
      [Op.route 0, Op.route 1, Op.connEvent (ConnState.Connected ⟨some 0⟩),
        Op.connEvent (ConnState.Connected ⟨none⟩)]).sent = [1, 0] ∧
    (run true true ⟨ConnState.New, [], [], []⟩
      [Op.route 0, Op.route 1, Op.connEvent (ConnState.Connected ⟨some 0⟩),
        Op.connEvent (ConnState.Connected ⟨none⟩)]).enq = [0, 1] ∧
    ¬ ∃ t, (run true true ⟨ConnState.New, [], [], []⟩
        [Op.route 0, Op.route 1, Op.connEvent (ConnState.Connected ⟨some 0⟩),
          Op.connEvent (ConnState.Connected ⟨none⟩)]).sent ++ t =
      (run true true ⟨ConnState.New, [], [], []⟩
        [Op.route 0, Op.route 1, Op.connEvent (ConnState.Connected ⟨some 0⟩),
          Op.connEvent (ConnState.Connected ⟨none⟩)]).enq := by
  refine ⟨by decide, by decide, by decide, ?_⟩
  rintro ⟨t, ht⟩
  have h1 : (run true true ⟨ConnState.New, [], [], []⟩
      [Op.route 0, Op.route 1, Op.connEvent (ConnState.Connected ⟨some 0⟩),
        Op.connEvent (ConnState.Connected ⟨none⟩)]).sent = [1, 0] := by decide
  have h2 : (run true true ⟨ConnState.New, [], [], []⟩
      [Op.route 0, Op.route 1, Op.connEvent (ConnState.Connected ⟨some 0⟩),
        Op.connEvent (ConnState.Connected ⟨none⟩)]).enq = [0, 1] := by decide
  rw [h1, h2] at ht
  simp at ht

/-- C2 (amended): whenever a send on the frame sender of the peer fails because
the channel was dropped, the failed frame is re-queued for that peer in both
places; but only the direct-send fast path of `route_remote`
(`dispatch/mod.rs` lines 308-314) also records `Closed` for the peer.  During
the drain run on a `Connected` event, at whatever position the failure strikes
- the channel accepting exactly the `a.length` frames queued before the failing
frame `f` - the earlier frames are delivered, the failed frame is re-queued (at
the tail of the remainder), and the recorded state is the arriving `Connected`
state with its now-dropped sender, not `Closed` (lines 200-212 and 235). -/
theorem C2_send_failure_amended :
    (∀ (hb : Bool) (f : Frame) (s : PeerState) (ch : Chan),
      s.conn = ConnState.Connected ch → s.queue = [] → Chan.send ch f = Except.error f →
      (route_remote_frame hb true f s).conn = ConnState.Closed ∧
      (route_remote_frame hb true f s).queue = [f]) ∧
    (∀ (s : PeerState) (a : List Frame) (f : Frame) (rest : List Frame) (ch : Chan),
      s.queue = a ++ f :: rest → ch.accepts = some a.length →
      (on_conn_state true (ConnState.Connected ch) s).queue = rest ++ [f] ∧
      (on_conn_state true (ConnState.Connected ch) s).sent = s.sent ++ a ∧
      (on_conn_state true (ConnState.Connected ch) s).conn =
        ConnState.Connected ⟨some 0⟩) := by
  constructor
  · intro hb f s ch hc hqe hs
    obtain ⟨conn, queue, sent, enq⟩ := s
    simp only at hc hqe
    subst hc
    subst hqe
    simp [route_remote_frame, hs, enqueue_frame]
  · intro s a f rest ch hqe hacc
    obtain ⟨conn, queue, sent, enq⟩ := s
    obtain ⟨acc⟩ := ch
    simp only at hqe hacc
    subst hqe
    subst hacc
    simp [on_conn_state, drain_on_connected_fail]

/-- Witness for C2 at concrete states: a dropped channel on the empty-queue
fast path, and a `Connected` event whose channel accepts one send arriving
while `[4, 5]` is queued - frame `4` is delivered, the send of `5` fails after
it, `5` is re-queued, and the state stays `Connected`. -/
theorem C2_send_failure_amended_witness :
    ((route_remote_frame true true 3 ⟨ConnState.Connected ⟨some 0⟩, [], [], []⟩).conn =
        ConnState.Closed ∧
      (route_remote_frame true true 3 ⟨ConnState.Connected ⟨some 0⟩, [], [], []⟩).queue = [3]) ∧
    ((on_conn_state true (ConnState.Connected ⟨some 1⟩)
        ⟨ConnState.Initializing, [4, 5], [], [4, 5]⟩).queue = [5] ∧
      (on_conn_state true (ConnState.Connected ⟨some 1⟩)
        ⟨ConnState.Initializing, [4, 5], [], [4, 5]⟩).sent = [4] ∧
      (on_conn_state true (ConnState.Connected ⟨some 1⟩)
        ⟨ConnState.Initializing, [4, 5], [], [4, 5]⟩).conn = ConnState.Connected ⟨some 0⟩) :=
  ⟨C2_send_failure_amended.1 true 3 _ ⟨some 0⟩ rfl rfl rfl,
   C2_send_failure_amended.2 ⟨ConnState.Initializing, [4, 5], [], [4, 5]⟩ [4] 5 [] ⟨some 1⟩
     rfl rfl⟩

/-- Counterexample for C2 as stated: a `Connected` event arrives for a peer
with frame `7` queued, but the channel is already dropped.  The frame is
re-queued, yet the state recorded for the peer is the arriving `Connected`
state, not `Closed` (`dispatch/mod.rs` line 235 inserts `state` unchanged after
the drain loop breaks). -/
theorem C2_send_failure_counterexample :
    (on_conn_state true (ConnState.Connected ⟨some 0⟩)
      ⟨ConnState.Initializing, [7], [], [7]⟩).queue = [7] ∧
    (on_conn_state true (ConnState.Connected ⟨some 0⟩)
      ⟨ConnState.Initializing, [7], [], [7]⟩).conn ≠ ConnState.Closed :=
  ⟨by decide, by decide⟩

/-- C3: handling `Register(actor, path, promise)` when the snapshot already
contains `path` fulfils the promise with `Err(DuplicateEntry)` and publishes
nothing (the registry is unchanged); otherwise it publishes a snapshot with the
new entry and fulfils `Ok(())` (`dispatch/mod.rs` lines 408-436). -/
theorem C3_registration (store : Store) (actor : ActorRef) (path : ActorPath) :
    (Store.contains store path = true →
      register store actor path = (store, Except.error RegistrationError.DuplicateEntry)) ∧
    (Store.contains store path = false →
      (register store actor path).2 = Except.ok () ∧
      (register store actor path).1 = Store.insert store actor path ∧
      lookupPath (register store actor path).1 path = some actor) := by
  constructor
  · intro h
    simp [register, h]
  · intro h
    refine ⟨by simp [register, h], by simp [register, h], ?_⟩
    simp [register, h, Store.insert, lookupPath, List.find?]

/-- Witness for C3: registering a path already present is rejected without
publication; registering a fresh path publishes it and later lookups see it. -/
theorem C3_registration_witness :
    (register [(ActorPath.unique ⟨Transport.TCP, 0, 0⟩ 1, 5)] 6
        (ActorPath.unique ⟨Transport.TCP, 0, 0⟩ 1) =
      ([(ActorPath.unique ⟨Transport.TCP, 0, 0⟩ 1, 5)],
        Except.error RegistrationError.DuplicateEntry)) ∧
    ((register [] 6 (ActorPath.unique ⟨Transport.TCP, 0, 0⟩ 1)).2 = Except.ok () ∧
      (register [] 6 (ActorPath.unique ⟨Transport.TCP, 0, 0⟩ 1)).1 =
        Store.insert [] 6 (ActorPath.unique ⟨Transport.TCP, 0, 0⟩ 1) ∧
      lookupPath (register [] 6 (ActorPath.unique ⟨Transport.TCP, 0, 0⟩ 1)).1
        (ActorPath.unique ⟨Transport.TCP, 0, 0⟩ 1) = some 6) :=
  ⟨(C3_registration _ _ _).1 (by decide), (C3_registration _ _ _).2 (by decide)⟩

/-- C6: with the peer in `New` or `Closed`, `route_remote` enqueues the frame
and requests a connection from the bridge, moving the state to `Initializing`;
with the bridge absent the message is dropped and the state marked `Closed`
(`dispatch/mod.rs` lines 283-299).  The bridge and the queue manager are both
installed together by `start` (lines 147-149), so reachable states satisfy
`hb = hq`: in particular with no bridge there is no queue manager either, and
the frame is indeed dropped. -/
theorem C6_new_closed_branch (hb hq : Bool) (f : Frame) (s : PeerState)
    (hconn : s.conn = ConnState.New ∨ s.conn = ConnState.Closed)
    (hlink : hb = hq) :
    (hb = true → route_remote_frame hb hq f s =
      { s with queue := s.queue ++ [f], enq := s.enq ++ [f], conn := ConnState.Initializing }) ∧
    (hb = false → route_remote_frame hb hq f s = { s with conn := ConnState.Closed }) := by
  subst hlink
  obtain ⟨conn, queue, sent, enq⟩ := s
  rcases hconn with h | h <;> simp only at h <;> subst h <;>
    exact ⟨fun hbv => by subst hbv; simp [route_remote_frame, enqueue_frame],
      fun hbv => by subst hbv; simp [route_remote_frame]⟩

/-- Witness for C6: a fresh peer with a bridge moves to `Initializing` with the
frame queued; a closed peer without a bridge drops the frame and stays `Closed`. -/
theorem C6_new_closed_branch_witness :
    route_remote_frame true true 9 ⟨ConnState.New, [], [], []⟩ =
      ⟨ConnState.Initializing, [9], [], [9]⟩ ∧
    route_remote_frame false false 9 ⟨ConnState.Closed, [], [], []⟩ =
      ⟨ConnState.Closed, [], [], []⟩ :=
  ⟨(C6_new_closed_branch true true 9 _ (Or.inl rfl) rfl).1 rfl,
   (C6_new_closed_branch false false 9 _ (Or.inr rfl) rfl).2 rfl⟩

/-- C8: `serialise` followed by `deserialise` is the identity on the typed-value
domain for every compatible Serialiser/Deserialiser pair defined in this code:
`T1Ser` over `Test1` (`serialisation.rs` lines 133-155) and `PingPongSer` over
`PingMsg` and over `PongMsg` (`dispatch/mod.rs` lines 745-819).  The `u64` field of each value is bounded by `2 ^ 64`. -/
theorem C8_serialise_deserialise_identity :
    (∀ v : Test1, v.i < 2 ^ 64 →
      ∃ bytes, T1Ser.serialise v [] = Except.ok bytes ∧
        T1Ser.deserialise bytes = some (Except.ok v)) ∧
    (∀ v : PingMsg, v.i < 2 ^ 64 →
      ∃ bytes, PingPongSer.serialisePing v [] = Except.ok bytes ∧
        PingPongSer.deserialisePing bytes = Except.ok v) ∧
    (∀ v : PongMsg, v.i < 2 ^ 64 →
      ∃ bytes, PingPongSer.serialisePong v [] = Except.ok bytes ∧
        PingPongSer.deserialisePong bytes = Except.ok v) := by
  refine ⟨fun v h => ?_, fun v h => ?_, fun v h => ?_⟩
  · refine ⟨_, rfl, ?_⟩
    show T1Ser.deserialise ((List.range 10).foldl (fun b k => putU64 k b) (putU64 v.i [])) = _
    obtain ⟨rest, hrest⟩ := foldl_putU64_extends (List.range 10) (putU64 v.i [])
    rw [hrest, T1Ser.deserialise, getU64_of_putU64 v.i h rest]
    rfl
  · refine ⟨_, rfl, ?_⟩
    show PingPongSer.deserialisePing (putU64 v.i ([] ++ [1])) = _
    simp only [List.nil_append, putU64, List.cons_append, List.nil_append,
      PingPongSer.deserialisePing, if_pos rfl]
    refine congrArg Except.ok (congrArg PingMsg.mk ?_)
    omega
  · refine ⟨_, rfl, ?_⟩
    show PingPongSer.deserialisePong (putU64 v.i ([] ++ [2])) = _
    simp only [List.nil_append, putU64, List.cons_append, List.nil_append,
      PingPongSer.deserialisePong, if_pos rfl]
    refine congrArg Except.ok (congrArg PongMsg.mk ?_)
    omega

/-- Witness for C8 at the concrete values used by the repository tests
(`Test1 { i: 42 }` and ping/pong counters). -/
theorem C8_serialise_deserialise_identity_witness :
    (∃ bytes, T1Ser.serialise ⟨42⟩ [] = Except.ok bytes ∧
      T1Ser.deserialise bytes = some (Except.ok ⟨42⟩)) ∧
    (∃ bytes, PingPongSer.serialisePing ⟨7⟩ [] = Except.ok bytes ∧
      PingPongSer.deserialisePing bytes = Except.ok ⟨7⟩) ∧
    (∃ bytes, PingPongSer.serialisePong ⟨7⟩ [] = Except.ok bytes ∧
      PingPongSer.deserialisePong bytes = Except.ok ⟨7⟩) :=
  ⟨C8_serialise_deserialise_identity.1 ⟨42⟩ (by norm_num),
   C8_serialise_deserialise_identity.2.1 ⟨7⟩ (by norm_num),
   C8_serialise_deserialise_identity.2.2 ⟨7⟩ (by norm_num)⟩

/-- C4 (amended): handling a `Msg` envelope panics only at: the
non-local-source invariant of `route_local`; serialisation failures (the
`expect("s11n error")` of `route_remote`, line 276, and the `unwrap` on the
receive-envelope serialisation of `route_local`, line 259); the `unwrap` on
`bridge.connect` (line 294); and source resolution through `system_path` before
the bridge exists.  In particular a serialisation failure on the remote path
panics instead of dropping the message with an error log (see the
counterexample); when serialisation succeeds, connect succeeds, the source
resolves, and the non-local-source invariant is respected, handling never
panics. -/
theorem C4_route_no_panic_amended
    (src : PathResolvable) (dst : ActorPath) (m : Msg) (store : Store)
    (netBridge : Option Bridge) (cfg : NetworkConfig) (selfId : Nat)
    (hasQm : Bool) (peer : PeerState) (srcPath : ActorPath) (f : Frame) (env : Nat)
    (hres : resolve_src (system_path netBridge cfg) selfId src = Except.ok srcPath)
    (hser1 : m.serMsg = Except.ok f)
    (hser2 : m.serEnvelope = Except.ok env)
    (hinv : dst.system.transport = Transport.LOCAL →
      ∀ dstRef, lookupPath store dst = some dstRef → m.localForm ≠ none →
        lookupPath store srcPath ≠ none) :
    ∃ r, route src dst m store netBridge cfg selfId true hasQm peer = Except.ok r := by
  cases ht : dst.system.transport with
  | LOCAL =>
    simp only [route, hres, ht]
    rcases hd : lookupPath store dst with _ | dstRef
    · exact ⟨(RouteResult.localDelivery LocalOutcome.noActor, peer), by simp [route_local, hd, Except.map]⟩
    · rcases hl : m.localForm with _ | v
      · exact ⟨(RouteResult.localDelivery (LocalOutcome.enqueued dstRef), peer),
          by simp [route_local, hd, hl, hser2, Except.map]⟩
      · have hsrc := hinv ht dstRef hd (by simp [hl])
        rcases hs : lookupPath store srcPath with _ | srcRef
        · exact absurd hs hsrc
        · exact ⟨(RouteResult.localDelivery (LocalOutcome.told dstRef srcRef), peer),
            by simp [route_local, hd, hl, hs, Except.map]⟩
  | TCP =>
    simp only [route, hres, ht]
    cases hc : peer.conn <;>
      exact ⟨(RouteResult.remote, route_remote_frame netBridge.isSome hasQm f peer),
        by simp [route_remote, hser1, hc, Except.map]⟩
  | UDP => exact ⟨(RouteResult.droppedUdp, peer), by simp [route, hres, ht]⟩

/-- Witness for C4 at a concrete envelope: a TCP destination, a `Path` source,
a message that serialises fine, and a fresh peer; the handling yields a result
instead of panicking. -/
theorem C4_route_no_panic_amended_witness :
    ∃ r, route (PathResolvable.Path (ActorPath.unique ⟨Transport.TCP, 1, 1⟩ 0))
      (ActorPath.unique ⟨Transport.TCP, 2, 2⟩ 3)
      ⟨none, Except.ok 0, Except.ok 0⟩ [] (some ⟨some (1, 1)⟩)
      ⟨(1, 1), Transport.TCP⟩ 0 true true
      ⟨ConnState.New, [], [], []⟩ = Except.ok r :=
  C4_route_no_panic_amended _ _ _ _ _ _ _ _ _
    (ActorPath.unique ⟨Transport.TCP, 1, 1⟩ 0) 0 0 rfl rfl rfl
    (fun h => absurd h (by decide))

/-- Counterexample for C4 as stated: a message whose remote serialisation fails
makes `route` panic with `"s11n error"` (the `expect` of `dispatch/mod.rs`
line 276) rather than drop the message with an error log. -/
theorem C4_route_no_panic_counterexample :
    route (PathResolvable.Path (ActorPath.unique ⟨Transport.TCP, 1, 1⟩ 0))
      (ActorPath.unique ⟨Transport.TCP, 2, 2⟩ 3)
      ⟨none, Except.error (SerError.Unknown "ser failed"), Except.ok 0⟩
      [] (some ⟨some (1, 1)⟩) ⟨(1, 1), Transport.TCP⟩ 0 true true
      ⟨ConnState.New, [], [], []⟩ = Except.error "s11n error" := rfl

/-- C5: `route` classifies every message by the transport of the destination path
(`dispatch/mod.rs` lines 353-367): LOCAL destinations go to `route_local`, TCP
destinations to `route_remote`, and UDP destinations are logged as unsupported
and dropped with no state change. -/
theorem C5_route_classification
    (src : PathResolvable) (dst : ActorPath) (m : Msg) (store : Store)
    (netBridge : Option Bridge) (cfg : NetworkConfig) (selfId : Nat)
    (connectOk hasQm : Bool) (peer : PeerState) (srcPath : ActorPath)
    (hres : resolve_src (system_path netBridge cfg) selfId src = Except.ok srcPath) :
    (dst.system.transport = Transport.LOCAL →
      route src dst m store netBridge cfg selfId connectOk hasQm peer =
        (route_local srcPath dst m store).map
          (fun o => (RouteResult.localDelivery o, peer))) ∧
    (dst.system.transport = Transport.TCP →
      route src dst m store netBridge cfg selfId connectOk hasQm peer =
        (route_remote m connectOk netBridge.isSome hasQm peer).map
          (fun p => (RouteResult.remote, p))) ∧
    (dst.system.transport = Transport.UDP →
      route src dst m store netBridge cfg selfId connectOk hasQm peer =
        Except.ok (RouteResult.droppedUdp, peer)) := by
  refine ⟨fun h => ?_, fun h => ?_, fun h => ?_⟩ <;> simp [route, hres, h]

/-- Witness for C5 at three concrete destinations, one per transport. -/
theorem C5_route_classification_witness :
    (route (PathResolvable.Path (ActorPath.unique ⟨Transport.LOCAL, 1, 1⟩ 0))
        (ActorPath.unique ⟨Transport.LOCAL, 2, 2⟩ 3) ⟨none, Except.ok 0, Except.ok 0⟩
        [] none ⟨(1, 1), Transport.TCP⟩ 0 true true ⟨ConnState.New, [], [], []⟩ =
      (route_local (ActorPath.unique ⟨Transport.LOCAL, 1, 1⟩ 0)
          (ActorPath.unique ⟨Transport.LOCAL, 2, 2⟩ 3) ⟨none, Except.ok 0, Except.ok 0⟩ []).map
        (fun o => (RouteResult.localDelivery o, ⟨ConnState.New, [], [], []⟩))) ∧
    (route (PathResolvable.Path (ActorPath.unique ⟨Transport.LOCAL, 1, 1⟩ 0))
        (ActorPath.unique ⟨Transport.TCP, 2, 2⟩ 3) ⟨none, Except.ok 0, Except.ok 0⟩
        [] none ⟨(1, 1), Transport.TCP⟩ 0 true true ⟨ConnState.New, [], [], []⟩ =
      (route_remote ⟨none, Except.ok 0, Except.ok 0⟩ true (none : Option Bridge).isSome true
          ⟨ConnState.New, [], [], []⟩).map
        (fun p => (RouteResult.remote, p))) ∧
    (route (PathResolvable.Path (ActorPath.unique ⟨Transport.LOCAL, 1, 1⟩ 0))
        (ActorPath.unique ⟨Transport.UDP, 2, 2⟩ 3) ⟨none, Except.ok 0, Except.ok 0⟩
        [] none ⟨(1, 1), Transport.TCP⟩ 0 true true ⟨ConnState.New, [], [], []⟩ =
      Except.ok (RouteResult.droppedUdp, ⟨ConnState.New, [], [], []⟩)) :=
  ⟨(C5_route_classification (PathResolvable.Path (ActorPath.unique ⟨Transport.LOCAL, 1, 1⟩ 0))
      (ActorPath.unique ⟨Transport.LOCAL, 2, 2⟩ 3) ⟨none, Except.ok 0, Except.ok 0⟩ []
      none ⟨(1, 1), Transport.TCP⟩ 0 true true ⟨ConnState.New, [], [], []⟩
      (ActorPath.unique ⟨Transport.LOCAL, 1, 1⟩ 0) rfl).1 rfl,
   (C5_route_classification (PathResolvable.Path (ActorPath.unique ⟨Transport.LOCAL, 1, 1⟩ 0))
      (ActorPath.unique ⟨Transport.TCP, 2, 2⟩ 3) ⟨none, Except.ok 0, Except.ok 0⟩ []
      none ⟨(1, 1), Transport.TCP⟩ 0 true true ⟨ConnState.New, [], [], []⟩
      (ActorPath.unique ⟨Transport.LOCAL, 1, 1⟩ 0) rfl).2.1 rfl,
   (C5_route_classification (PathResolvable.Path (ActorPath.unique ⟨Transport.LOCAL, 1, 1⟩ 0))
      (ActorPath.unique ⟨Transport.UDP, 2, 2⟩ 3) ⟨none, Except.ok 0, Except.ok 0⟩ []
      none ⟨(1, 1), Transport.TCP⟩ 0 true true ⟨ConnState.New, [], [], []⟩
      (ActorPath.unique ⟨Transport.LOCAL, 1, 1⟩ 0) rfl).2.2 rfl⟩

/-- C7: across consecutive reaper runs (`dispatch/mod.rs` lines 153-176), a
zero-reap run calls `incr()` and any other run calls `decr()`; the next
interval is non-decreasing after a zero-reap run (bounded by the ceiling) and
non-increasing after a non-zero-reap run (bounded by the floor), and it stays
within the bounds, so the monotonicity composes across consecutive such runs. -/
theorem C7_reaper_interval (r : Reaper) (numReaped : Nat)
    (hsched : r.scheduled = true)
    (hfac : 1 ≤ r.strategy.factor)
    (hlow : r.strategy.lower ≤ r.strategy.curr)
    (hup : r.strategy.curr ≤ r.strategy.upper)
    (hbound : r.strategy.lower ≤ r.strategy.upper) :
    (numReaped = 0 →
      r.strategy.curr ≤ (schedule_reaper r numReaped).strategy.curr ∧
      r.strategy.lower ≤ (schedule_reaper r numReaped).strategy.curr ∧
      (schedule_reaper r numReaped).strategy.curr ≤ r.strategy.upper) ∧
    (numReaped ≠ 0 →
      (schedule_reaper r numReaped).strategy.curr ≤ r.strategy.curr ∧
      r.strategy.lower ≤ (schedule_reaper r numReaped).strategy.curr ∧
      (schedule_reaper r numReaped).strategy.curr ≤ r.strategy.upper) := by
  obtain ⟨sched, c, lo, hi, fac⟩ := r
  simp only at hsched hfac hlow hup hbound
  subst hsched
  have hmul : c ≤ c * fac := by
    calc c = c * 1 := (Nat.mul_one c).symm
    _ ≤ c * fac := Nat.mul_le_mul_left c hfac
  constructor
  · intro h
    subst h
    simp only [schedule_reaper, Strategy.incr, Bool.not_true, Bool.false_eq_true, if_false,
      if_pos rfl]
    exact ⟨le_min hmul hup, le_min (hlow.trans hmul) hbound, min_le_right _ _⟩
  · intro h
    simp only [schedule_reaper, Strategy.decr, Bool.not_true, Bool.false_eq_true, if_false,
      if_neg h]
    exact ⟨max_le (Nat.div_le_self c fac) hlow, le_max_right _ _,
      max_le ((Nat.div_le_self c fac).trans hup) hbound⟩

/-- Witness for C7 at the configuration suggested by the spec (floor 100, ceiling
10000, factor 2) with current interval 200: a zero-reap run lengthens within
bounds and a run reaping 3 entries shortens within bounds. -/
theorem C7_reaper_interval_witness :
    (200 ≤ (schedule_reaper ⟨true, 200, 100, 10000, 2⟩ 0).strategy.curr ∧
      100 ≤ (schedule_reaper ⟨true, 200, 100, 10000, 2⟩ 0).strategy.curr ∧
      (schedule_reaper ⟨true, 200, 100, 10000, 2⟩ 0).strategy.curr ≤ 10000) ∧
    ((schedule_reaper ⟨true, 200, 100, 10000, 2⟩ 3).strategy.curr ≤ 200 ∧
      100 ≤ (schedule_reaper ⟨true, 200, 100, 10000, 2⟩ 3).strategy.curr ∧
      (schedule_reaper ⟨true, 200, 100, 10000, 2⟩ 3).strategy.curr ≤ 10000) :=
  ⟨(C7_reaper_interval ⟨true, 200, 100, 10000, 2⟩ 0 rfl (by norm_num) (by norm_num)
      (by norm_num) (by norm_num)).1 rfl,
   (C7_reaper_interval ⟨true, 200, 100, 10000, 2⟩ 3 rfl (by norm_num) (by norm_num)
      (by norm_num) (by norm_num)).2 (by norm_num)⟩

/-- C9: calling `system_path` while the network bridge is absent (before the
dispatcher has started and bound its socket) panics; after a successful start
(bridge present with a bound local address) it returns the `SystemPath` built
from the configured transport and the bound socket address
(`dispatch/mod.rs` lines 445-452). -/
theorem C9_system_path_start (cfg : NetworkConfig) :
    (system_path none cfg = Except.error
      "You must wait until the socket is bound before attempting to create a system path!") ∧
    (∀ (b : Bridge) (ip port : Nat), b.localAddr = some (ip, port) →
      system_path (some b) cfg = Except.ok ⟨cfg.transport, ip, port⟩) := by
  refine ⟨rfl, fun b ip port h => ?_⟩
  obtain ⟨la⟩ := b
  simp only at h
  subst h
  rfl

/-- Witness for C9: the default TCP configuration with a bridge bound at
`(127, 8080)`. -/
theorem C9_system_path_start_witness :
    (system_path none ⟨(0, 0), Transport.TCP⟩ = Except.error
      "You must wait until the socket is bound before attempting to create a system path!") ∧
    system_path (some ⟨some (127, 8080)⟩) ⟨(0, 0), Transport.TCP⟩ =
      Except.ok ⟨Transport.TCP, 127, 8080⟩ :=
  ⟨(C9_system_path_start ⟨(0, 0), Transport.TCP⟩).1,
   (C9_system_path_start ⟨(0, 0), Transport.TCP⟩).2 ⟨some (127, 8080)⟩ 127 8080 rfl⟩

/-- C10: the `Serialisable` obtained by composing a pair `(v, s)` via
`From<(T, S)>` (`serialisation.rs` lines 28-37, 57-71) delegates exactly:
its `id` equals `s.id`, its `size_hint` equals `s.size_hint`, and its
`serialise buf` is precisely `s.serialise v buf`. -/
theorem C10_fromPair_delegates {T : Type} (v : T) (s : Serialiser T) :
    (fromPairSerialisable (v, s)).id = s.id ∧
    (fromPairSerialisable (v, s)).size_hint = s.size_hint ∧
    ∀ buf, (fromPairSerialisable (v, s)).serialise buf = s.serialise v buf :=
  ⟨rfl, rfl, fun _ => rfl⟩

end Kompact
